import Mathlib

/-!
Verification of the routing agent (backend/rag_logic.py) and its HTTP layer
(backend/main.py).

The program routes a query to one of two responders (document retrieval or
live web search) chosen by a language-model classifier, then returns a flat
record {query, decision, result, sources}.  External effects — the
classifier output, the ranked similarity search of the document store, the
answer-generation language model, and the Tavily web-search provider — are
modelled as oracle inputs; everything the repository code computes from them
is embedded as executable Lean functions below.
-/

/-! ## Python string primitives

Embeddings of the Python string operations the code relies on:
`str.strip` (remove leading/trailing whitespace), `str.lower`
(lowercasing), `sep.join` (interleave a separator), and `len`. -/

/-- Whitespace test used by Python `str.strip` (space, tab, newline,
carriage return cover every character occurring in this program). -/
def isPyWhitespace (c : Char) : Bool :=
  (c == ' ') || (c == '\t') || (c == '\n') || (c == '\r')

/-- Python `str.strip`: drop leading and trailing whitespace. -/
def pyStrip (s : String) : String :=
  ⟨((s.data.dropWhile isPyWhitespace).reverse.dropWhile isPyWhitespace).reverse⟩

/-- Python `str.lower` (ASCII range; the two labels are ASCII). -/
def pyLower (s : String) : String :=
  ⟨s.data.map Char.toLower⟩

/-- Python `sep.join(parts)`. -/
def pyJoin (sep : String) : List String → String
  | [] => ""
  | [x] => x
  | x :: xs => x ++ sep ++ pyJoin sep xs

/-- Python `len` on a string counts characters. -/
def pyLen (s : String) : Nat :=
  s.data.length

/-! ## Data model (rag_logic.py) -/

/-- A stored passage: `langchain` Document with `page_content` and the
`source` entry of its metadata dict (`none` models a missing key). -/
structure StoredDocument where
  page_content : String
  metadata_source : Option String
deriving Repr, DecidableEq

/-- One Tavily search result: the `url` and `content` entries of the result
dict (`none` models a missing key). -/
structure SearchResult where
  url : Option String
  content : Option String
deriving Repr, DecidableEq

/-- A Tavily response: the `results` entry of the response dict
(`none` models a missing key, read through `.get('results', [])`). -/
structure SearchResponse where
  results : Option (List SearchResult)
deriving Repr, DecidableEq

/-- The keyword arguments of the `tavily_client.search` call. -/
structure SearchRequest where
  query : String
  search_depth : String
  max_results : Nat
deriving Repr, DecidableEq

/-- The shared LangGraph state `AgentState` of rag_logic.py. -/
structure AgentState where
  query : String
  decision : String
  result : String
  documents : List String
deriving Repr, DecidableEq

/-- A LangGraph `Command.update` dict: only the keys present in the dict
are written back into the state (a missing key is `none`). -/
structure StateUpdate where
  query : Option String := none
  decision : Option String := none
  result : Option String := none
  documents : Option (List String) := none
deriving Repr, DecidableEq

/-- A LangGraph `Command`: the next node to visit and the state update. -/
structure AgentCommand where
  goto : String
  update : StateUpdate
deriving Repr, DecidableEq

/-- Merging a `Command.update` dict into the current state: keys present in
the dict overwrite the field, absent keys leave it unchanged. -/
def applyUpdate (s : AgentState) (u : StateUpdate) : AgentState :=
  { query := u.query.getD s.query
    decision := u.decision.getD s.decision
    result := u.result.getD s.result
    documents := u.documents.getD s.documents }

/-- What one responder-node invocation produces: its `Command`, the list of
prompts it sent to the answer language model (in order), and the list of
requests it issued to the Tavily client (in order). -/
structure NodeResult where
  command : AgentCommand
  llm_prompts : List String
  tavily_requests : List SearchRequest
deriving Repr, DecidableEq

/-! ## Graph nodes (rag_logic.py) -/

/-- `router_node` (rag_logic.py lines 105-140).  The outbound classifier
call is abstracted: `classifier_output` is `response.content`, the raw text
the language model returned for the routing prompt.  The code normalizes it
with `.strip().lower()`, validates membership in the two-label list, falls
back to "rag_search" otherwise, and returns a Command routing to the
decision while recording it in the state. -/
def router_node (classifier_output : String) (_state : AgentState) : AgentCommand :=
  let decision := pyLower (pyStrip classifier_output)
  let decision := if ["rag_search", "web_search"].contains decision then decision
                  else "rag_search"
  { goto := decision, update := { decision := some decision } }

/-- Models the external Chroma retriever (spec section 4.1, Document Store):
`vectorstore.as_retriever(search_kwargs={"k": k}).invoke(query)` returns the
top-k passages ranked by embedding similarity; `ranking` stands for the
whole store ordered by descending similarity to the current query. -/
def retrieverInvoke (ranking : List StoredDocument) (k : Nat) : List StoredDocument :=
  List.take k ranking

/-- `documents_content` in `rag_search_node`: passage bodies joined with a
double newline. -/
def ragDocumentsContent (relevant_docs : List StoredDocument) : String :=
  pyJoin "\n\n" (relevant_docs.map (fun doc => doc.page_content))

/-- The `rag_prompt` f-string of `rag_search_node`. -/
def ragPrompt (query : String) (documents_content : String) : String :=
  "Usa i seguenti documenti per rispondere alla domanda. \nSe la risposta non è nei documenti, dillo chiaramente.\n\nDOCUMENTI:\n"
    ++ documents_content ++ "\n\nDOMANDA: " ++ query ++ "\n\nRISPOSTA:"

/-- `rag_search_node` (rag_logic.py lines 143-188): retrieve the top-3
passages, join their bodies, ask the language model once, and record the
answer together with the passages' provenance labels (metadata `source`,
defaulting to "unknown"). -/
def rag_search_node (ranking : List StoredDocument) (llm : String → String)
    (state : AgentState) : NodeResult :=
  let query := state.query
  let relevant_docs := retrieverInvoke ranking 3
  let documents_content := ragDocumentsContent relevant_docs
  let rag_prompt := ragPrompt query documents_content
  let result := llm rag_prompt
  let doc_sources := relevant_docs.map (fun doc => doc.metadata_source.getD "unknown")
  { command := { goto := "END", update := { result := some result, documents := some doc_sources } }
    llm_prompts := [rag_prompt]
    tavily_requests := [] }

/-- The f-string for one web result inside `results_content`:
`f"Fonte: {result.get('url', 'N/A')}\n{result.get('content', '')}"`. -/
def webResultLine (result : SearchResult) : String :=
  "Fonte: " ++ result.url.getD "N/A" ++ "\n" ++ result.content.getD ""

/-- `results_content` in `web_search_node`: the per-result lines joined with
a double newline. -/
def webResultsContent (results : List SearchResult) : String :=
  pyJoin "\n\n" (results.map webResultLine)

/-- The `web_prompt` f-string of `web_search_node`. -/
def webPrompt (query : String) (results_content : String) : String :=
  "Usa i seguenti risultati di ricerca web per rispondere alla domanda.\n\nRISULTATI WEB:\n"
    ++ results_content ++ "\n\nDOMANDA: " ++ query ++ "\n\nRISPOSTA (sintetizza le informazioni in modo chiaro):"

/-- The keyword arguments `web_search_node` passes to
`tavily_client.search`. -/
def tavilyRequest (query : String) : SearchRequest :=
  { query := query, search_depth := "basic", max_results := 3 }

/-- `web_search_node` (rag_logic.py lines 191-253).  The Tavily client is
an oracle `tavily` that either returns a response or raises (`Except.error`
models the raised exception's message).  On success the node joins the
result snippets, asks the language model once, and records the answer with
the result URLs; on any exception it returns a synthetic error answer and
an empty source list without re-raising. -/
def web_search_node (tavily : SearchRequest → Except String SearchResponse)
    (llm : String → String) (state : AgentState) : NodeResult :=
  let query := state.query
  let req := tavilyRequest query
  match tavily req with
  | Except.ok search_results =>
    let results := search_results.results.getD []
    let results_content := webResultsContent results
    let web_prompt := webPrompt query results_content
    let result := llm web_prompt
    let sources := results.map (fun result => result.url.getD "N/A")
    { command := { goto := "END", update := { result := some result, documents := some sources } }
      llm_prompts := [web_prompt]
      tavily_requests := [req] }
  | Except.error e =>
    let error_message := "Errore durante la ricerca web: " ++ e
    { command := { goto := "END", update := { result := some error_message, documents := some [] } }
      llm_prompts := []
      tavily_requests := [req] }

/-! ## Graph execution (rag_logic.py lines 260-322) -/

/-- The oracle inputs of one agent run: the classifier's raw output for the
routing prompt, the similarity ranking of the document store for this
query, the answer language model, and the Tavily client. -/
structure Oracles where
  classifier_output : String
  ranking : List StoredDocument
  llm : String → String
  tavily : SearchRequest → Except String SearchResponse

/-- The flat record `run_agent` returns. -/
structure AgentResponse where
  query : String
  decision : String
  result : String
  sources : List String
deriving Repr, DecidableEq

/-- Everything observable about one compiled-graph invocation: the states
before and after each node, which nodes ran in which order, and the final
response record. -/
structure RunTrace where
  initial_state : AgentState
  router_command : AgentCommand
  state_after_router : AgentState
  responder_name : String
  responder_output : NodeResult
  final_state : AgentState
  visited : List String
  response : AgentResponse
deriving Repr, DecidableEq

/-- Node lookup of the compiled graph built by `build_agent_graph`: the
graph knows exactly the responder nodes "rag_search" and "web_search"; a
`Command.goto` naming anything else would fail (`none`). -/
def invokeNode (o : Oracles) (name : String) (s : AgentState) : Option NodeResult :=
  if name = "rag_search" then some (rag_search_node o.ranking o.llm s)
  else if name = "web_search" then some (web_search_node o.tavily o.llm s)
  else none

/-- The initial state dict built by `run_agent`. -/
def initialAgentState (query : String) : AgentState :=
  { query := query, decision := "", result := "", documents := [] }

/-- `run_agent` (rag_logic.py lines 287-322), instrumented: START edges to
the router, the router's Command routes to exactly one responder, the
responder's Command goes to END, and the final state is flattened into the
response record {query, decision, result, sources}. -/
def run_agent_trace (o : Oracles) (query : String) : Option RunTrace :=
  let initial_state := initialAgentState query
  let rcmd := router_node o.classifier_output initial_state
  let s1 := applyUpdate initial_state rcmd.update
  match invokeNode o rcmd.goto s1 with
  | none => none
  | some nres =>
    let s2 := applyUpdate s1 nres.command.update
    some { initial_state := initial_state
           router_command := rcmd
           state_after_router := s1
           responder_name := rcmd.goto
           responder_output := nres
           final_state := s2
           visited := ["router", rcmd.goto]
           response := { query := s2.query, decision := s2.decision,
                         result := s2.result, sources := s2.documents } }

/-- The response record of `run_agent`. -/
def run_agent (o : Oracles) (query : String) : Option AgentResponse :=
  (run_agent_trace o query).map (fun t => t.response)

/-- The chosen category of a run, as surfaced in the response. -/
def agentDecision (o : Oracles) (query : String) : Option String :=
  (run_agent_trace o query).map (fun t => t.response.decision)

/-! ## HTTP layer (main.py) -/

/-- The request body of POST /chat (`ChatRequest` pydantic model). -/
structure ChatRequest where
  query : String
deriving Repr, DecidableEq

/-- The pydantic field constraints of `ChatRequest.query`:
`min_length=1, max_length=1000`. -/
def chatRequestValid (request : ChatRequest) : Bool :=
  decide (1 ≤ pyLen request.query) && decide (pyLen request.query ≤ 1000)

/-- The response body of POST /chat (`ChatResponse` pydantic model). -/
structure ChatResponse where
  query : String
  decision : String
  result : String
  sources : List String
  status : String
deriving Repr, DecidableEq

/-- The `HTTPException` raised by the `chat` handler: a status code and a
detail string. -/
structure HTTPErrorModel where
  status_code : Nat
  detail : String
deriving Repr, DecidableEq

/-- The `chat` handler of main.py (lines 97-139).  `run_agent_api` is the
imported `run_agent` viewed at the handler boundary: it either returns the
agent's record or raises (`Except.error` carries `str(e)`).  On success the
handler wraps the record into a `ChatResponse` with status "success"; on
any exception it raises `HTTPException(status_code=500, detail=...)`. -/
def chat (request : ChatRequest)
    (run_agent_api : String → Except String AgentResponse) :
    Except HTTPErrorModel ChatResponse :=
  match run_agent_api request.query with
  | Except.ok agent_response =>
    Except.ok { query := agent_response.query
                decision := agent_response.decision
                result := agent_response.result
                sources := agent_response.sources
                status := "success" }
  | Except.error e =>
    Except.error { status_code := 500
                   detail := "Errore interno del server: " ++ e }

/-! ## Helper lemmas -/

/-- The router always routes to one of the two responder labels. -/
theorem router_goto_cases (c : String) (s : AgentState) :
    (router_node c s).goto = "rag_search" ∨ (router_node c s).goto = "web_search" := by
  by_cases h : pyLower (pyStrip c) = "rag_search" ∨ pyLower (pyStrip c) = "web_search"
  · have hc : (["rag_search", "web_search"].contains (pyLower (pyStrip c))) = true := by
      simpa using h
    simp only [router_node]
    rw [if_pos hc]
    exact h
  · have hc : ¬ ((["rag_search", "web_search"].contains (pyLower (pyStrip c))) = true) := by
      simpa using h
    simp only [router_node]
    rw [if_neg hc]
    left
    rfl

/-- The router's Command records in the state exactly the label it routes
to. -/
theorem router_update_eq_goto (c : String) (s : AgentState) :
    (router_node c s).update = { decision := some (router_node c s).goto } := by
  unfold router_node
  by_cases h : (["rag_search", "web_search"].contains (pyLower (pyStrip c))) = true <;>
    simp [h]

/-- The retrieval responder's update never touches the decision key. -/
theorem rag_update_decision_none (r : List StoredDocument) (l : String → String)
    (s : AgentState) : (rag_search_node r l s).command.update.decision = none := rfl

/-- The retrieval responder's update never touches the query key. -/
theorem rag_update_query_none (r : List StoredDocument) (l : String → String)
    (s : AgentState) : (rag_search_node r l s).command.update.query = none := rfl

/-- The web responder's update never touches the decision key (on either
branch of the try/except). -/
theorem web_update_decision_none (t : SearchRequest → Except String SearchResponse)
    (l : String → String) (s : AgentState) :
    (web_search_node t l s).command.update.decision = none := by
  cases h : t (tavilyRequest s.query) <;> simp [web_search_node, h]

/-- The web responder's update never touches the query key. -/
theorem web_update_query_none (t : SearchRequest → Except String SearchResponse)
    (l : String → String) (s : AgentState) :
    (web_search_node t l s).command.update.query = none := by
  cases h : t (tavilyRequest s.query) <;> simp [web_search_node, h]

/-- The retrieval responder always writes the documents key. -/
theorem rag_update_documents_isSome (r : List StoredDocument) (l : String → String)
    (s : AgentState) : (rag_search_node r l s).command.update.documents.isSome = true := rfl

/-- The web responder always writes the documents key. -/
theorem web_update_documents_isSome (t : SearchRequest → Except String SearchResponse)
    (l : String → String) (s : AgentState) :
    (web_search_node t l s).command.update.documents.isSome = true := by
  cases h : t (tavilyRequest s.query) <;> simp [web_search_node, h]

/-- Structure of every run: the trace fields are exactly the composition
Orchestrator → Router → selected responder. -/
theorem run_agent_trace_spec (o : Oracles) (q : String) (t : RunTrace)
    (h : run_agent_trace o q = some t) :
    t.initial_state = initialAgentState q ∧
    t.router_command = router_node o.classifier_output (initialAgentState q) ∧
    t.state_after_router = applyUpdate t.initial_state t.router_command.update ∧
    t.responder_name = t.router_command.goto ∧
    ((t.responder_name = "rag_search" ∧
        t.responder_output = rag_search_node o.ranking o.llm t.state_after_router) ∨
      (t.responder_name = "web_search" ∧
        t.responder_output = web_search_node o.tavily o.llm t.state_after_router)) ∧
    t.final_state = applyUpdate t.state_after_router t.responder_output.command.update ∧
    t.visited = ["router", t.responder_name] ∧
    t.response = { query := t.final_state.query, decision := t.final_state.decision,
                   result := t.final_state.result, sources := t.final_state.documents } := by
  simp only [run_agent_trace, invokeNode] at h
  rcases router_goto_cases o.classifier_output (initialAgentState q) with hg | hg
  · rw [hg] at h
    simp only [reduceIte] at h
    cases h
    refine ⟨rfl, rfl, rfl, ?_, Or.inl ⟨rfl, rfl⟩, rfl, rfl, rfl⟩
    exact hg.symm
  · rw [hg] at h
    simp only [reduceIte] at h
    cases h
    refine ⟨rfl, rfl, rfl, ?_, Or.inr ⟨rfl, rfl⟩, rfl, rfl, rfl⟩
    exact hg.symm

/-- Every run produces a trace: the router only ever routes to one of the
two responder nodes that the compiled graph contains. -/
theorem run_agent_trace_total (o : Oracles) (q : String) :
    ∃ t, run_agent_trace o q = some t := by
  simp only [run_agent_trace, invokeNode]
  rcases router_goto_cases o.classifier_output (initialAgentState q) with hg | hg <;>
    rw [hg] <;> simp only [reduceIte] <;> exact ⟨_, rfl⟩

/-- The selected responder's Command never carries a decision update. -/
theorem responder_update_decision_none (o : Oracles) (q : String) (t : RunTrace)
    (h : run_agent_trace o q = some t) :
    t.responder_output.command.update.decision = none := by
  obtain ⟨-, -, -, -, h5, -, -, -⟩ := run_agent_trace_spec o q t h
  rcases h5 with ⟨-, he⟩ | ⟨-, he⟩
  · rw [he]; exact rag_update_decision_none ..
  · rw [he]; exact web_update_decision_none ..

/-- The selected responder's Command never carries a query update. -/
theorem responder_update_query_none (o : Oracles) (q : String) (t : RunTrace)
    (h : run_agent_trace o q = some t) :
    t.responder_output.command.update.query = none := by
  obtain ⟨-, -, -, -, h5, -, -, -⟩ := run_agent_trace_spec o q t h
  rcases h5 with ⟨-, he⟩ | ⟨-, he⟩
  · rw [he]; exact rag_update_query_none ..
  · rw [he]; exact web_update_query_none ..

/-- The decision surfaced by a run is the label the router routed to. -/
theorem agentDecision_eq_router_goto (o : Oracles) (q : String) :
    agentDecision o q =
      some (router_node o.classifier_output (initialAgentState q)).goto := by
  obtain ⟨t, ht⟩ := run_agent_trace_total o q
  obtain ⟨h1, h2, h3, h4, -, h6, -, h8⟩ := run_agent_trace_spec o q t ht
  have hnone := responder_update_decision_none o q t ht
  simp only [agentDecision, ht]
  show some t.response.decision = _
  rw [h8]
  simp only [h6, applyUpdate, hnone, Option.getD_none]
  rw [h3, h2, router_update_eq_goto]
  simp [applyUpdate]

/-! ## Claims -/

/-- Claim C1: for every query, if the classifier's raw output, after
trimming whitespace and lowercasing, equals one of the two literal labels
"rag_search" or "web_search", the Router sets the category to exactly that
label; for any other normalized output (partial matches, extra words, the
empty string) the Router sets the category to the default "rag_search". -/
theorem C1_router_category (raw : String) (state : AgentState) :
    ((pyLower (pyStrip raw) = "rag_search" ∨ pyLower (pyStrip raw) = "web_search") →
        (router_node raw state).update.decision = some (pyLower (pyStrip raw))) ∧
    ((pyLower (pyStrip raw) ≠ "rag_search" ∧ pyLower (pyStrip raw) ≠ "web_search") →
        (router_node raw state).update.decision = some "rag_search") := by
  constructor
  · intro h
    have hc : (["rag_search", "web_search"].contains (pyLower (pyStrip raw))) = true := by
      simpa using h
    simp only [router_node]
    rw [if_pos hc]
  · intro h
    have hc : ¬ ((["rag_search", "web_search"].contains (pyLower (pyStrip raw))) = true) := by
      intro hcon
      have hmem : pyLower (pyStrip raw) = "rag_search" ∨ pyLower (pyStrip raw) = "web_search" := by
        simpa using hcon
      rcases hmem with h1 | h1
      · exact h.1 h1
      · exact h.2 h1
    simp only [router_node]
    rw [if_neg hc]

/-- Concrete check of Claim C1 on both branches: a valid label with
whitespace and capitals maps to itself; an invalid output maps to the
default. -/
theorem C1_router_category_witness :
    ((pyLower (pyStrip "  WEB_SEARCH ") = "rag_search" ∨
        pyLower (pyStrip "  WEB_SEARCH ") = "web_search") ∧
      (router_node "  WEB_SEARCH " (initialAgentState "q")).update.decision =
        some (pyLower (pyStrip "  WEB_SEARCH "))) ∧
    ((pyLower (pyStrip "maybe") ≠ "rag_search" ∧ pyLower (pyStrip "maybe") ≠ "web_search") ∧
      (router_node "maybe" (initialAgentState "q")).update.decision = some "rag_search") :=
  ⟨⟨by decide, (C1_router_category "  WEB_SEARCH " (initialAgentState "q")).1 (by decide)⟩,
   ⟨by decide, (C1_router_category "maybe" (initialAgentState "q")).2 (by decide)⟩⟩

/-- Claim C2: on the web-search path, if the provider call raises, the
responder returns normally with a non-empty answer describing the error,
an empty source list, no change to the chosen category, and routes to END
instead of re-raising. -/
theorem C2_web_search_provider_exception
    (tavily : SearchRequest → Except String SearchResponse) (llm : String → String)
    (state : AgentState) (e : String)
    (h : tavily (tavilyRequest state.query) = Except.error e) :
    (web_search_node tavily llm state).command.update.result =
        some ("Errore durante la ricerca web: " ++ e) ∧
    ("Errore durante la ricerca web: " ++ e) ≠ "" ∧
    (web_search_node tavily llm state).command.update.documents = some [] ∧
    (web_search_node tavily llm state).command.update.decision = none ∧
    (applyUpdate state (web_search_node tavily llm state).command.update).decision =
        state.decision ∧
    (web_search_node tavily llm state).command.goto = "END" := by
  refine ⟨by simp [web_search_node, h], ?_, by simp [web_search_node, h],
    by simp [web_search_node, h], ?_, by simp [web_search_node, h]⟩
  · intro hc
    have hdata : ("Errore durante la ricerca web: ").data ++ e.data = [] := by
      have hd := congrArg String.data hc
      simp only [] at hd
      exact hd
    have hnil : ("Errore durante la ricerca web: ").data = [] :=
      (List.append_eq_nil.mp hdata).1
    exact absurd hnil (by decide)
  · have hdec : (web_search_node tavily llm state).command.update.decision = none := by
      simp [web_search_node, h]
    simp [applyUpdate, hdec]

/-- Concrete check of Claim C2: a provider that raises "boom" yields the
synthetic error answer, empty sources, untouched decision. -/
theorem C2_web_search_provider_exception_witness :
    (web_search_node (fun _ => Except.error "boom") (fun _ => "answer")
        (initialAgentState "q")).command.update.result =
        some ("Errore durante la ricerca web: " ++ "boom") ∧
    ("Errore durante la ricerca web: " ++ "boom") ≠ "" ∧
    (web_search_node (fun _ => Except.error "boom") (fun _ => "answer")
        (initialAgentState "q")).command.update.documents = some [] ∧
    (web_search_node (fun _ => Except.error "boom") (fun _ => "answer")
        (initialAgentState "q")).command.update.decision = none ∧
    (applyUpdate (initialAgentState "q")
        (web_search_node (fun _ => Except.error "boom") (fun _ => "answer")
          (initialAgentState "q")).command.update).decision =
        (initialAgentState "q").decision ∧
    (web_search_node (fun _ => Except.error "boom") (fun _ => "answer")
        (initialAgentState "q")).command.goto = "END" :=
  C2_web_search_provider_exception (fun _ => Except.error "boom") (fun _ => "answer")
    (initialAgentState "q") "boom" rfl

/-- Claim C3: once the Router has set the decision, no downstream step
alters it (the responder's update carries no decision key and the final
decision equals the routed one); and the sources list is empty from the
initial state through the router step, until the single selected responder
populates it exactly once. -/
theorem C3_decision_and_sources_invariant (o : Oracles) (q : String) (t : RunTrace)
    (h : run_agent_trace o q = some t) :
    t.final_state.decision = t.state_after_router.decision ∧
    t.responder_output.command.update.decision = none ∧
    t.initial_state.documents = [] ∧
    t.router_command.update.documents = none ∧
    t.state_after_router.documents = [] ∧
    t.responder_output.command.update.documents.isSome = true ∧
    some t.final_state.documents = t.responder_output.command.update.documents := by
  obtain ⟨h1, h2, h3, -, h5, h6, -, -⟩ := run_agent_trace_spec o q t h
  have hdec := responder_update_decision_none o q t h
  have hdocs_some : t.responder_output.command.update.documents.isSome = true := by
    rcases h5 with ⟨-, he⟩ | ⟨-, he⟩
    · rw [he]; exact rag_update_documents_isSome ..
    · rw [he]; exact web_update_documents_isSome ..
  have hrouter_docs : t.router_command.update.documents = none := by
    rw [h2, router_update_eq_goto]
  have hinit_docs : t.initial_state.documents = [] := by
    rw [h1]; rfl
  have hs1_docs : t.state_after_router.documents = [] := by
    rw [h3]
    simp [applyUpdate, hrouter_docs, hinit_docs]
  refine ⟨?_, hdec, hinit_docs, hrouter_docs, hs1_docs, hdocs_some, ?_⟩
  · rw [h6]
    simp [applyUpdate, hdec]
  · obtain ⟨ds, hds⟩ := Option.isSome_iff_exists.mp hdocs_some
    rw [h6]
    simp [applyUpdate, hds]

/-- A concrete oracle assignment used to check the hypotheses of the
run-level claims: classifier answers "web_search", a one-passage store,
a constant answer model, a provider that raises "boom". -/
def witnessOracles : Oracles :=
  { classifier_output := "web_search"
    ranking := [{ page_content := "doc", metadata_source := some "python_intro.txt" }]
    llm := fun _ => "answer"
    tavily := fun _ => Except.error "boom" }

/-- Placeholder trace used only as the default of an `Option.getD`. -/
def emptyTrace : RunTrace :=
  { initial_state := initialAgentState ""
    router_command := { goto := "", update := {} }
    state_after_router := initialAgentState ""
    responder_name := ""
    responder_output :=
      { command := { goto := "", update := {} }, llm_prompts := [], tavily_requests := [] }
    final_state := initialAgentState ""
    visited := []
    response := { query := "", decision := "", result := "", sources := [] } }

/-- The concrete trace of `witnessOracles` on query "q". -/
def witnessTrace : RunTrace :=
  (run_agent_trace witnessOracles "q").getD emptyTrace

/-- Concrete check of Claim C3 on `witnessOracles`. -/
theorem C3_decision_and_sources_invariant_witness :
    run_agent_trace witnessOracles "q" = some witnessTrace ∧
    (witnessTrace.final_state.decision = witnessTrace.state_after_router.decision ∧
      witnessTrace.responder_output.command.update.decision = none ∧
      witnessTrace.initial_state.documents = [] ∧
      witnessTrace.router_command.update.documents = none ∧
      witnessTrace.state_after_router.documents = [] ∧
      witnessTrace.responder_output.command.update.documents.isSome = true ∧
      some witnessTrace.final_state.documents =
        witnessTrace.responder_output.command.update.documents) :=
  ⟨by decide, C3_decision_and_sources_invariant witnessOracles "q" witnessTrace (by decide)⟩

/-- Claim C4: every run builds the initial record with category unset and
answer and sources empty, visits the router once and then exactly one of
the two responders, never visits a node twice, and returns a record whose
query field is the input query. -/
theorem C4_orchestrator_single_pass (o : Oracles) (q : String) :
    ∃ t, run_agent_trace o q = some t ∧
      t.initial_state = { query := q, decision := "", result := "", documents := [] } ∧
      (t.responder_name = "rag_search" ∨ t.responder_name = "web_search") ∧
      t.visited = ["router", t.responder_name] ∧
      t.visited.Nodup ∧
      ¬ ("rag_search" ∈ t.visited ∧ "web_search" ∈ t.visited) ∧
      t.response.query = q ∧
      run_agent o q = some t.response := by
  obtain ⟨t, ht⟩ := run_agent_trace_total o q
  obtain ⟨h1, h2, h3, -, h5, h6, h7, h8⟩ := run_agent_trace_spec o q t ht
  have hmem : t.responder_name = "rag_search" ∨ t.responder_name = "web_search" :=
    h5.imp And.left And.left
  have hquery_none := responder_update_query_none o q t ht
  have hrouter_query : t.router_command.update.query = none := by
    rw [h2, router_update_eq_goto]
  have hquery : t.response.query = q := by
    rw [h8]
    show t.final_state.query = q
    rw [h6]
    simp only [applyUpdate, hquery_none, Option.getD_none]
    rw [h3]
    simp only [applyUpdate, hrouter_query, Option.getD_none]
    rw [h1]
    rfl
  refine ⟨t, ht, by rw [h1]; rfl, hmem, h7, ?_, ?_, hquery, ?_⟩
  · rw [h7]
    rcases hmem with hm | hm <;> rw [hm] <;> decide
  · rw [h7]
    rcases hmem with hm | hm <;> rw [hm] <;> decide
  · simp [run_agent, ht]

/-- Claim C5: on the retrieval path the recorded sources are the provenance
labels of the retrieved passages in retrieval order (duplicates are kept),
at most 3 of them, and none only when the document store is empty
(`ranking` is the store ordered by similarity, so a permutation of it). -/
theorem C5_rag_sources (store ranking : List StoredDocument) (llm : String → String)
    (state : AgentState) (hperm : List.Perm ranking store) :
    ∃ srcs, (rag_search_node ranking llm state).command.update.documents = some srcs ∧
      srcs = (retrieverInvoke ranking 3).map (fun doc => doc.metadata_source.getD "unknown") ∧
      srcs.length ≤ 3 ∧
      (srcs.length = 0 → store = []) := by
  refine ⟨_, rfl, rfl, ?_, ?_⟩
  · simp only [retrieverInvoke, List.length_map, List.length_take]
    omega
  · intro h0
    simp only [retrieverInvoke, List.length_map, List.length_take] at h0
    have hlen : ranking.length = 0 := by omega
    have hr : ranking = [] := List.length_eq_zero.mp hlen
    have hp : store.Perm ([] : List StoredDocument) := hr ▸ hperm.symm
    exact hp.eq_nil

/-- A concrete two-passage store whose passages share a provenance label. -/
def witnessStore : List StoredDocument :=
  [{ page_content := "a", metadata_source := some "s.txt" },
   { page_content := "b", metadata_source := some "s.txt" }]

/-- Concrete check of Claim C5 on `witnessStore`. -/
theorem C5_rag_sources_witness :
    ∃ srcs, (rag_search_node witnessStore (fun _ => "answer")
        (initialAgentState "q")).command.update.documents = some srcs ∧
      srcs = (retrieverInvoke witnessStore 3).map
        (fun doc => doc.metadata_source.getD "unknown") ∧
      srcs.length ≤ 3 ∧
      (srcs.length = 0 → witnessStore = []) :=
  C5_rag_sources witnessStore witnessStore (fun _ => "answer") (initialAgentState "q")
    (List.Perm.refl _)

/-- If every result carries a url, reading each url with the "N/A" default
returns exactly the urls. -/
theorem map_url_getD_of_all_some (rs : List SearchResult) (urls : List String)
    (h : rs.map SearchResult.url = urls.map some) :
    rs.map (fun r => r.url.getD "N/A") = urls := by
  induction rs generalizing urls with
  | nil =>
    cases urls with
    | nil => rfl
    | cons u us => simp at h
  | cons r rs ih =>
    cases urls with
    | nil => simp at h
    | cons u us =>
      simp only [List.map_cons, List.cons.injEq] at h
      rw [List.map_cons, h.1, Option.getD_some, ih us h.2]

/-- Claim C6: on the web-search path with a successful provider call, the
provider is asked once for at most 3 results at basic depth, the language
model is invoked exactly once with the context built from each result's
url and content snippet, and the recorded sources are exactly the result
urls in provider order. -/
theorem C6_web_search_success
    (tavily : SearchRequest → Except String SearchResponse) (llm : String → String)
    (state : AgentState) (resp : SearchResponse)
    (h : tavily (tavilyRequest state.query) = Except.ok resp) :
    (web_search_node tavily llm state).tavily_requests =
        [{ query := state.query, search_depth := "basic", max_results := 3 }] ∧
    (∀ r ∈ (web_search_node tavily llm state).tavily_requests,
        r.max_results ≤ 3 ∧ r.search_depth = "basic") ∧
    (web_search_node tavily llm state).llm_prompts =
        [webPrompt state.query (webResultsContent (resp.results.getD []))] ∧
    (web_search_node tavily llm state).llm_prompts.length = 1 ∧
    (web_search_node tavily llm state).command.update.documents =
        some ((resp.results.getD []).map (fun r => r.url.getD "N/A")) ∧
    (∀ urls : List String, (resp.results.getD []).map SearchResult.url = urls.map some →
        (web_search_node tavily llm state).command.update.documents = some urls) := by
  have hreq : (web_search_node tavily llm state).tavily_requests =
      [tavilyRequest state.query] := by
    simp [web_search_node, h]
  refine ⟨by rw [hreq]; rfl, ?_, by simp [web_search_node, h],
    by simp [web_search_node, h], by simp [web_search_node, h], ?_⟩
  · intro r hr
    rw [hreq] at hr
    have hr1 : r = tavilyRequest state.query := by simpa using hr
    rw [hr1]
    exact ⟨Nat.le.refl, rfl⟩
  · intro urls hurls
    have hmap := map_url_getD_of_all_some (resp.results.getD []) urls hurls
    simp [web_search_node, h, hmap]

/-- A concrete two-result Tavily response, both results carrying urls. -/
def witnessWebResponse : SearchResponse :=
  { results := some
      [{ url := some "https://a.example", content := some "ca" },
       { url := some "https://b.example", content := some "cb" }] }

/-- A Tavily client that always succeeds with `witnessWebResponse`. -/
def witnessWebTavily : SearchRequest → Except String SearchResponse :=
  fun _ => Except.ok witnessWebResponse

/-- Concrete check of Claim C6 on `witnessWebTavily`. -/
theorem C6_web_search_success_witness :
    (web_search_node witnessWebTavily (fun _ => "answer")
        (initialAgentState "q")).tavily_requests =
        [{ query := (initialAgentState "q").query, search_depth := "basic", max_results := 3 }] ∧
    (∀ r ∈ (web_search_node witnessWebTavily (fun _ => "answer")
        (initialAgentState "q")).tavily_requests,
        r.max_results ≤ 3 ∧ r.search_depth = "basic") ∧
    (web_search_node witnessWebTavily (fun _ => "answer")
        (initialAgentState "q")).llm_prompts =
        [webPrompt (initialAgentState "q").query
          (webResultsContent (witnessWebResponse.results.getD []))] ∧
    (web_search_node witnessWebTavily (fun _ => "answer")
        (initialAgentState "q")).llm_prompts.length = 1 ∧
    (web_search_node witnessWebTavily (fun _ => "answer")
        (initialAgentState "q")).command.update.documents =
        some ((witnessWebResponse.results.getD []).map (fun r => r.url.getD "N/A")) ∧
    (∀ urls : List String,
        (witnessWebResponse.results.getD []).map SearchResult.url = urls.map some →
        (web_search_node witnessWebTavily (fun _ => "answer")
          (initialAgentState "q")).command.update.documents = some urls) :=
  C6_web_search_success witnessWebTavily (fun _ => "answer") (initialAgentState "q")
    witnessWebResponse rfl

/-- Claim C7: for every POST /chat request with a query of 1 to 1000
characters, the endpoint returns the composed success record when agent
processing succeeds, and returns a non-2xx error carrying a detail string
exactly when agent processing raises. -/
theorem C7_chat_endpoint (run_agent_api : String → Except String AgentResponse)
    (request : ChatRequest) (_hvalid : chatRequestValid request = true) :
    (∀ r, run_agent_api request.query = Except.ok r →
        chat request run_agent_api =
          Except.ok { query := r.query, decision := r.decision, result := r.result,
                      sources := r.sources, status := "success" }) ∧
    (∀ e, run_agent_api request.query = Except.error e →
        chat request run_agent_api =
          Except.error { status_code := 500,
                         detail := "Errore interno del server: " ++ e } ∧
        ¬ (200 ≤ 500 ∧ (500 : Nat) < 300)) ∧
    ((∃ err, chat request run_agent_api = Except.error err) ↔
      (∃ e, run_agent_api request.query = Except.error e)) := by
  refine ⟨?_, ?_, ?_⟩
  · intro r hr
    simp [chat, hr]
  · intro e he
    refine ⟨by simp [chat, he], by omega⟩
  · cases hh : run_agent_api request.query with
    | ok r => simp [chat, hh]
    | error e => simp [chat, hh]

/-- Concrete check of Claim C7: a valid one-word request against an agent
boundary that raises. -/
theorem C7_chat_endpoint_witness :
    chatRequestValid { query := "hi" } = true ∧
    ((∀ r, (fun _ => Except.error "agent failure" :
          String → Except String AgentResponse) ({ query := "hi" } : ChatRequest).query =
            Except.ok r →
        chat { query := "hi" } (fun _ => Except.error "agent failure") =
          Except.ok { query := r.query, decision := r.decision, result := r.result,
                      sources := r.sources, status := "success" }) ∧
    (∀ e, (fun _ => Except.error "agent failure" :
          String → Except String AgentResponse) ({ query := "hi" } : ChatRequest).query =
            Except.error e →
        chat { query := "hi" } (fun _ => Except.error "agent failure") =
          Except.error { status_code := 500,
                         detail := "Errore interno del server: " ++ e } ∧
        ¬ (200 ≤ 500 ∧ (500 : Nat) < 300)) ∧
    ((∃ err, chat { query := "hi" } (fun _ => Except.error "agent failure") =
        Except.error err) ↔
      (∃ e, (fun _ => Except.error "agent failure" :
          String → Except String AgentResponse) ({ query := "hi" } : ChatRequest).query =
            Except.error e))) :=
  ⟨by decide,
   C7_chat_endpoint (fun _ => Except.error "agent failure") { query := "hi" } (by decide)⟩

/-- Claim C8: two runs on the identical query with identical classifier
output (deterministic temperature-0 provider) and identical document store
produce the same chosen category. -/
theorem C8_deterministic_category (o1 o2 : Oracles) (q : String)
    (hclassifier : o1.classifier_output = o2.classifier_output)
    (_hstore : o1.ranking = o2.ranking) :
    agentDecision o1 q = agentDecision o2 q := by
  rw [agentDecision_eq_router_goto, agentDecision_eq_router_goto, hclassifier]

/-- A second oracle assignment: same classifier output and store as
`witnessOracles`, different answer model and provider. -/
def witnessOraclesVariant : Oracles :=
  { classifier_output := "web_search"
    ranking := [{ page_content := "doc", metadata_source := some "python_intro.txt" }]
    llm := fun _ => "a different answer"
    tavily := fun _ => Except.ok witnessWebResponse }

/-- Concrete check of Claim C8: the two runs agree on the category even
though the providers behind the responders differ. -/
theorem C8_deterministic_category_witness :
    witnessOracles.classifier_output = witnessOraclesVariant.classifier_output ∧
    witnessOracles.ranking = witnessOraclesVariant.ranking ∧
    agentDecision witnessOracles "q" = agentDecision witnessOraclesVariant "q" :=
  ⟨rfl, rfl, C8_deterministic_category witnessOracles witnessOraclesVariant "q" rfl rfl⟩

/-- Claim C9: a retrieved passage whose metadata lacks a source key yields
the literal "unknown" at its position of the sources list; a web result
lacking a url key yields the literal "N/A" both in its context-block line
and at its position of the sources list; neither case fails. -/
theorem C9_missing_provenance_defaults
    (ranking : List StoredDocument) (tavily : SearchRequest → Except String SearchResponse)
    (llm : String → String) (state : AgentState) (resp : SearchResponse)
    (hok : tavily (tavilyRequest state.query) = Except.ok resp) :
    (∀ (i : Nat) (doc : StoredDocument), (retrieverInvoke ranking 3)[i]? = some doc → doc.metadata_source = none →
        ((rag_search_node ranking llm state).command.update.documents.getD [])[i]? =
          some "unknown") ∧
    (∀ (i : Nat) (r : SearchResult), (resp.results.getD [])[i]? = some r → r.url = none →
        ((web_search_node tavily llm state).command.update.documents.getD [])[i]? =
          some "N/A" ∧
        ((resp.results.getD []).map webResultLine)[i]? =
          some ("Fonte: N/A" ++ "\n" ++ r.content.getD "")) := by
  constructor
  · intro i doc hdoc hnone
    have hdocs : ((rag_search_node ranking llm state).command.update.documents.getD []) =
        (retrieverInvoke ranking 3).map (fun doc => doc.metadata_source.getD "unknown") := rfl
    rw [hdocs, List.getElem?_map, hdoc]
    show some (doc.metadata_source.getD "unknown") = some "unknown"
    rw [hnone]
    rfl
  · intro i r hr hurl
    have hdocs : ((web_search_node tavily llm state).command.update.documents.getD []) =
        (resp.results.getD []).map (fun r => r.url.getD "N/A") := by
      simp [web_search_node, hok]
    constructor
    · rw [hdocs, List.getElem?_map, hr]
      show some (r.url.getD "N/A") = some "N/A"
      rw [hurl]
      rfl
    · rw [List.getElem?_map, hr]
      show some (webResultLine r) = some ("Fonte: N/A" ++ "\n" ++ r.content.getD "")
      rw [show webResultLine r =
        "Fonte: " ++ r.url.getD "N/A" ++ "\n" ++ r.content.getD "" from rfl, hurl]
      rfl

/-- A one-passage store whose passage has no source metadata. -/
def witnessNoProvenanceStore : List StoredDocument :=
  [{ page_content := "a", metadata_source := none }]

/-- A one-result Tavily response whose result has no url key. -/
def witnessNoUrlResponse : SearchResponse :=
  { results := some [{ url := none, content := some "snippet" }] }

/-- A Tavily client that always succeeds with `witnessNoUrlResponse`. -/
def witnessNoUrlTavily : SearchRequest → Except String SearchResponse :=
  fun _ => Except.ok witnessNoUrlResponse

/-- Concrete check of Claim C9 on a passage without source metadata and a
result without a url. -/
theorem C9_missing_provenance_defaults_witness :
    (∀ (i : Nat) (doc : StoredDocument), (retrieverInvoke witnessNoProvenanceStore 3)[i]? = some doc →
        doc.metadata_source = none →
        ((rag_search_node witnessNoProvenanceStore (fun _ => "answer")
          (initialAgentState "q")).command.update.documents.getD [])[i]? =
          some "unknown") ∧
    (∀ (i : Nat) (r : SearchResult), (witnessNoUrlResponse.results.getD [])[i]? = some r → r.url = none →
        ((web_search_node witnessNoUrlTavily (fun _ => "answer")
          (initialAgentState "q")).command.update.documents.getD [])[i]? =
          some "N/A" ∧
        ((witnessNoUrlResponse.results.getD []).map webResultLine)[i]? =
          some ("Fonte: N/A" ++ "\n" ++ r.content.getD "")) :=
  C9_missing_provenance_defaults witnessNoProvenanceStore witnessNoUrlTavily
    (fun _ => "answer") (initialAgentState "q") witnessNoUrlResponse rfl

/-- Claim C10: on the web-search path, a successful provider call with zero
results (or a response lacking the results key) still completes: the
language model is invoked once with an empty context block and the sources
list is empty — so empty sources do not imply a provider failure. -/
theorem C10_web_search_empty_results
    (tavily : SearchRequest → Except String SearchResponse) (llm : String → String)
    (state : AgentState) (resp : SearchResponse)
    (hok : tavily (tavilyRequest state.query) = Except.ok resp)
    (hempty : resp.results.getD [] = []) :
    (web_search_node tavily llm state).llm_prompts = [webPrompt state.query ""] ∧
    (web_search_node tavily llm state).llm_prompts.length = 1 ∧
    webResultsContent (resp.results.getD []) = "" ∧
    (web_search_node tavily llm state).command.update.documents = some [] ∧
    (web_search_node tavily llm state).command.goto = "END" := by
  have hctx : webResultsContent (resp.results.getD []) = "" := by
    rw [hempty]; rfl
  refine ⟨?_, ?_, hctx, ?_, ?_⟩
  · simp [web_search_node, hok, hctx]
  · simp [web_search_node, hok]
  · simp [web_search_node, hok, hempty]
  · simp [web_search_node, hok]

/-- A Tavily client that succeeds with a response lacking the results
key. -/
def witnessNoResultsTavily : SearchRequest → Except String SearchResponse :=
  fun _ => Except.ok { results := none }

/-- Concrete check of Claim C10 on a response without a results key. -/
theorem C10_web_search_empty_results_witness :
    (web_search_node witnessNoResultsTavily (fun _ => "answer")
        (initialAgentState "q")).llm_prompts =
        [webPrompt (initialAgentState "q").query ""] ∧
    (web_search_node witnessNoResultsTavily (fun _ => "answer")
        (initialAgentState "q")).llm_prompts.length = 1 ∧
    webResultsContent ((SearchResponse.mk none).results.getD []) = "" ∧
    (web_search_node witnessNoResultsTavily (fun _ => "answer")
        (initialAgentState "q")).command.update.documents = some [] ∧
    (web_search_node witnessNoResultsTavily (fun _ => "answer")
        (initialAgentState "q")).command.goto = "END" :=
  C10_web_search_empty_results witnessNoResultsTavily (fun _ => "answer")
    (initialAgentState "q") (SearchResponse.mk none) rfl rfl
